import Mathlib

/-!
Shallow embedding of the `medical_rag` module (class `MedicalRAGPipeline`).

Text is modelled as Lean `String` (a wrapper around `List Char`); Python
string primitives (`str.lower`, `str.strip`, the `in` substring test,
`re.sub(r'[^\w\s]', '', s)`) are modelled character-wise for the ASCII
range the knowledge base and queries use.  The sentence-transformer
encoder and the Gemini generative model are external services; they are
passed to the pipeline as function parameters (`enc`, `gen`), with the
generative call returning `Except` to model a raised exception.
Embedding vectors carry exact integer coordinates, so L2 distances are
exact; the faiss `IndexFlatL2.search` padding behaviour (labels `-1`
with an FLT_MAX distance when `k` exceeds the number of stored vectors)
is modelled explicitly, as is Python's negative list indexing.
-/

/-- Python `str.lower` (ASCII case mapping, as used by the pipeline). -/
def pyLower (s : String) : String := ⟨s.data.map Char.toLower⟩

/-- The whitespace class of Python `str.strip` / regex `\s` (ASCII). -/
def isPySpace (c : Char) : Bool :=
  c = ' ' || c = '\t' || c = '\n' || c = '\r' || c = '\x0b' || c = '\x0c'

/-- Python `str.strip()`: drop leading and trailing whitespace. -/
def pyStrip (s : String) : String :=
  ⟨((s.data.dropWhile isPySpace).reverse.dropWhile isPySpace).reverse⟩

/-- Regex `\w` (ASCII): letters, digits, underscore. -/
def isWordChar (c : Char) : Bool := c.isAlphanum || c = '_'

/-- Python substring test `p in s`. -/
def pyIn (p s : String) : Bool :=
  (List.range (s.data.length + 1)).any fun i => p.data.isPrefixOf (s.data.drop i)

/-- Python `suf ==` tail test: `s.endswith(suf)` (used only in statements). -/
def pyEndsWith (s suf : String) : Bool := suf.data.isSuffixOf s.data

/-- `self.exit_patterns` (line 40): the set literal, duplicates collapsed. -/
def exitPatterns : List String :=
  ["quit", "exit", "bye", "goodbye", "terminate", "end", "sign off",
   "terminate the call", "end call"]

/-- `self.medical_disclaimer` (lines 46-47). -/
def medicalDisclaimer : String :=
  "\nDisclaimer: This information is for educational purposes only. Please consult a healthcare professional for medical advice, diagnosis, or treatment."

/-- The fixed farewell returned on an exit request (line 172). -/
def farewellResponse : String :=
  "Thank you for using our medical assistance service. Remember to consult healthcare professionals for medical advice. Goodbye!"

/-- The apologetic fallback returned by the exception handler (lines 225-226). -/
def fallbackResponse : String :=
  "I apologize, but I\x27m having trouble generating a response. Please try again or consult a healthcare professional for medical advice."

/-- The misspelling table of `normalize_query` (lines 119-129). -/
def misspellings : List (String × String) :=
  [("canser", "cancer"), ("diabetis", "diabetes"), ("artritis", "arthritis"),
   ("highbloodpressure", "hypertension"), ("asma", "asthma"), ("hart", "heart"),
   ("stroke", "stroke"), ("alzheimers", "alzheimer"), ("highblood", "hypertension")]

/-- Python `dict.get(k, dflt)` over an association list. -/
def dictGetD (d : List (String × String)) (k dflt : String) : String :=
  match d.find? (fun kv => kv.1 == k) with
  | some kv => kv.2
  | none => dflt

/-- Python `dict.get(k)` / `dict[k]` lookup result over an association list. -/
def dictFind? (d : List (String × String)) (k : String) : Option String :=
  (d.find? (fun kv => kv.1 == k)).map (fun kv => kv.2)

/-- `re.sub(r'[^\w\s]', '', query.lower())`: the canonicalization step of
`normalize_query` (line 117). -/
def canonicalize (query : String) : String :=
  ⟨(pyLower query).data.filter (fun c => isWordChar c || isPySpace c)⟩

/-- `normalize_query` (lines 112-130): canonicalize, then
`misspellings.get(query, query)`. -/
def normalizeQuery (query : String) : String :=
  let q := canonicalize query
  dictGetD misspellings q q

/-- `is_exit_request` (lines 132-137): lower-case and strip, then test each
exit pattern for substring containment. -/
def isExitRequest (query : String) : Bool :=
  let normalizedQuery := pyStrip (pyLower query)
  exitPatterns.any fun p => pyIn p normalizedQuery

/-- A `Document` (lines 16-19): content plus `metadata = {'tag': tag}`. -/
structure Document where
  content : String
  tag : String
deriving DecidableEq, Repr

/-- One record of the knowledge file, a JSON object modelled as an
association list of string fields. -/
abbrev Record := List (String × String)

/-- The per-record body of `load_diseases_data` (lines 58-72).  `disease['tag']`
raises `KeyError` when the key is absent (the loader's `except` re-raises);
all other field accesses use `.get` with an empty-string default, and the
`Types:` / `Prevention:` lines are emitted only when the key is present. -/
def processDisease (d : Record) : Except String Document :=
  match dictFind? d "tag" with
  | none => .error "KeyError: tag"
  | some tagv =>
    let content :=
      dictGetD d "tag" "" ++ ": " ++ dictGetD d tagv "" ++ "\n" ++
      "Symptoms: " ++ dictGetD d "symptoms" "" ++ "\n" ++
      "Treatment: " ++ dictGetD d "treatment" "" ++ "\n" ++
      (if (dictFind? d "types").isSome then "Types: " ++ dictGetD d "types" "" ++ "\n" else "") ++
      (if (dictFind? d "prevention").isSome then "Prevention: " ++ dictGetD d "prevention" "" else "")
    .ok ⟨content, tagv⟩

/-- `load_diseases_data` (lines 49-78) over the parsed `data['diseases']`
list: the loop appends one `Document` per record and the first raised
`KeyError` propagates (the handler logs and re-raises). -/
def loadDiseasesData : List Record → Except String (List Document)
  | [] => .ok []
  | d :: ds => do
    let doc ← processDisease d
    let docs ← loadDiseasesData ds
    .ok (doc :: docs)

/-- An embedding vector with exact integer coordinates. -/
abbrev Vec := List Int

/-- Squared Euclidean (L2) distance used by `faiss.IndexFlatL2`. -/
def l2dist (a b : Vec) : Int :=
  ((a.zip b).map (fun p => (p.1 - p.2) * (p.1 - p.2))).sum

/-- FLT_MAX, the distance faiss reports for padded (missing) neighbours. -/
def sentinelDist : Int := 340282346638528859811704183484516925440

/-- Insert into a list sorted by `le` (used to model faiss result ordering). -/
def insertLe (le : α → α → Bool) (a : α) : List α → List α
  | [] => [a]
  | b :: bs => if le a b then a :: b :: bs else b :: insertLe le a bs

/-- Insertion sort by `le`. -/
def sortLe (le : α → α → Bool) : List α → List α
  | [] => []
  | a :: as => insertLe le a (sortLe le as)

/-- `faiss.IndexFlatL2.search` on a single query: every stored vector is
scored by exact L2 distance, results are ordered by ascending distance with
ties broken by ascending insertion index, and exactly `k` `(label, distance)`
pairs are returned — when `k` exceeds the number of stored vectors the tail
is padded with label `-1` and distance FLT_MAX. -/
def faissSearch (embs : List Vec) (q : Vec) (k : Nat) : List (Int × Int) :=
  let scored := embs.enum.map fun p => ((p.1 : Int), l2dist q p.2)
  let sorted := sortLe (fun x y => decide (x.2 < y.2 ∨ (x.2 = y.2 ∧ x.1 ≤ y.1))) scored
  sorted.take k ++ List.replicate (k - embs.length) (-1, sentinelDist)

/-- Python list indexing `l[i]`: negative indices count from the end;
out-of-range indexing raises (`none`). -/
def pyGetIdx (l : List α) (i : Int) : Option α :=
  if 0 ≤ i then l[i.toNat]?
  else if 0 ≤ (l.length : Int) + i then l[((l.length : Int) + i).toNat]?
  else none

/-- The pipeline's retrieval state: `self.index` (`None` before `create_index`;
otherwise the stored embedding vectors in insertion order) and
`self.documents`. -/
structure PipelineState where
  index : Option (List Vec)
  documents : List Document

/-- `search` (lines 139-160) given the already-encoded query vector:
`self.index.search(..., k)` raises `AttributeError` when the index is `None`;
otherwise the loop dereferences `self.documents[idx]` for every returned
label (Python negative indexing applies to the `-1` padding labels), and any
exception is logged and re-raised. -/
def searchModel (st : PipelineState) (qvec : Vec) (k : Nat) :
    Except String (List (Document × Int)) :=
  match st.index with
  | none => .error "AttributeError: NoneType object has no attribute search"
  | some embs =>
    (faissSearch embs qvec k).mapM fun pr =>
      match pyGetIdx st.documents pr.1 with
      | some d => .ok (d, pr.2)
      | none => .error "IndexError: list index out of range"

/-- One entry of `intents_data['intents']`. -/
structure Intent where
  patterns : List String
  responses : List String
deriving DecidableEq, Repr

/-- The parsed intents file: `{'intents': [...]}`. -/
structure IntentsData where
  intents : List Intent
deriving DecidableEq, Repr

/-- The per-intent test of the scan loop (line 186):
`any(pattern.lower() in normalized_query for pattern in intent['patterns'])`. -/
def matchesIntent (nq : String) (it : Intent) : Bool :=
  it.patterns.any fun p => pyIn (pyLower p) nq

/-- The intent scan loop (lines 183-188): first intent whose pattern set
matches, `break` on the first hit. -/
def findIntent (intents : List Intent) (nq : String) : Option Intent :=
  intents.find? (matchesIntent nq)

/-- The f-string prompt template (lines 191-205), with `context` and the
original query interpolated. -/
def buildPrompt (context query : String) : String :=
  "As a medical assistant, provide a clear and concise answer to the following question using the provided context. \n            Focus on accuracy and avoid repetition.\n\n            Context:\n            " ++
  context ++
  "\n\n            Question: " ++ query ++
  "\n\n            Guidelines:\n            1. Be concise and avoid repeating information\n            2. If information is not available in the context, acknowledge that\n            3. For symptoms or serious conditions, recommend consulting a healthcare provider\n            4. Ensure the response is clear and well-structured\n            5. If this is an emergency condition, emphasize seeking immediate medical attention\n            "

/-- Which of the pipeline's steps ran during one `generate_response` call:
query normalization (line 175), index search (line 178), the intent scan
(lines 183-188), and the Gemini call (line 208). -/
structure Effects where
  normalizeCalled : Bool
  searchCalled : Bool
  intentScanned : Bool
  generateCalled : Bool
deriving DecidableEq, Repr

/-- All four steps ran. -/
def allSteps : Effects := ⟨true, true, true, true⟩

/-- `generate_response` (lines 165-226), returning the response string
together with the steps that ran.  `enc` is the sentence-transformer encode
of the (normalized) query; `gen` is the Gemini `generate_content` call plus
the `response.text` access, `.error` modelling a raised exception.  The one
`try`/`except` around the whole body converts any exception — from
`search`, from `matching_intent['responses'][0]` on an empty response list,
or from the generative call — into the fixed fallback string. -/
def generateResponse (st : PipelineState) (enc : String → Vec)
    (gen : String → Except String String) (query : String)
    (idata : IntentsData) : String × Effects :=
  if isExitRequest query then
    (farewellResponse, ⟨false, false, false, false⟩)
  else
    let nq := normalizeQuery query
    match searchModel st (enc nq) 3 with
    | .error _ => (fallbackResponse, ⟨true, true, false, false⟩)
    | .ok searchResults =>
      let context := String.intercalate "\n\n" (searchResults.map fun r => r.1.content)
      let matchingIntent := findIntent idata.intents nq
      let prompt := buildPrompt context query
      match gen prompt with
      | .error _ => (fallbackResponse, ⟨true, true, true, true⟩)
      | .ok text =>
        let finalResponse := pyStrip text
        match matchingIntent with
        | none => (finalResponse ++ medicalDisclaimer, allSteps)
        | some it =>
          match it.responses with
          | [] => (fallbackResponse, allSteps)
          | r0 :: _ =>
            let merged :=
              if pyIn r0 finalResponse then finalResponse
              else finalResponse ++ "\n\n" ++ r0
            (merged ++ medicalDisclaimer, allSteps)

/-! ## Helper lemmas -/

/-- `pyIn p s` holds exactly when `p` occurs as a contiguous substring of `s`. -/
theorem pyIn_iff (p s : String) :
    pyIn p s = true ↔ ∃ a b : List Char, s.data = a ++ p.data ++ b := by
  unfold pyIn
  rw [List.any_eq_true]
  constructor
  · rintro ⟨i, _, hpre⟩
    rw [ List.isPrefixOf_iff_prefix] at hpre
    obtain ⟨t, ht⟩ := hpre
    refine ⟨s.data.take i, t, ?_⟩
    rw [List.append_assoc, ht, List.take_append_drop]
  · rintro ⟨a, b, hab⟩
    refine ⟨a.length, ?_, ?_⟩
    · rw [List.mem_range, hab]
      simp
      omega
    · rw [ List.isPrefixOf_iff_prefix, hab, List.append_assoc, List.drop_left]
      exact ⟨b, rfl⟩

/-- A string always ends with the suffix that was just appended to it. -/
theorem pyEndsWith_append (a b : String) : pyEndsWith (a ++ b) b = true := by
  unfold pyEndsWith
  rw [String.data_append, List.isSuffixOf_iff_suffix]
  exact List.suffix_append a.data b.data

/-- `dictGetD` is `dictFind?` with a default. -/
theorem dictGetD_eq_getD (d : Record) (k dflt : String) :
    dictGetD d k dflt = (dictFind? d k).getD dflt := by
  unfold dictGetD dictFind?
  cases d.find? (fun kv => kv.1 == k) <;> rfl

/-- The non-exit paths of `generate_response` end in the fallback string or in
a string carrying the disclaimer suffix. -/
theorem nonExit_fallback_or_disclaimer (st : PipelineState) (enc : String → Vec)
    (gen : String → Except String String) (query : String) (idata : IntentsData)
    (h : isExitRequest query = false) :
    (generateResponse st enc gen query idata).1 = fallbackResponse ∨
    pyEndsWith (generateResponse st enc gen query idata).1 medicalDisclaimer = true := by
  unfold generateResponse
  rw [h]
  simp only [Bool.false_eq_true, if_false]
  split
  · left; rfl
  · split
    · left; rfl
    · split
      · right; exact pyEndsWith_append _ _
      · split
        · left; rfl
        · right
          split
          · exact pyEndsWith_append _ _
          · exact pyEndsWith_append _ _

/-- The first intent in table order that matches wins the scan. -/
theorem findIntent_first (nq : String) (pre : List Intent) (it : Intent)
    (post : List Intent) (hpre : ∀ j ∈ pre, matchesIntent nq j = false)
    (hit : matchesIntent nq it = true) :
    findIntent (pre ++ it :: post) nq = some it := by
  induction pre with
  | nil => simp [findIntent, List.find?_cons, hit]
  | cons a as ih =>
    have ha := hpre a (by simp)
    simp only [findIntent, List.cons_append, List.find?_cons, ha]
    exact ih fun j hj => hpre j (by simp [hj])

/-! ## Claims -/

/-- C1: with 2 indexed documents and `k = 3`, `search` does not clamp `k`: it
returns 3 results, the third being the faiss padding entry with label `-1`
and FLT_MAX distance, which Python negative indexing dereferences to the
last document — so the claimed "exactly 2 results" is violated by the code. -/
theorem c1_search_no_clamp :
    ∃ r, searchModel ⟨some [[0], [1]], [⟨"alpha doc", "alpha"⟩, ⟨"beta doc", "beta"⟩]⟩
        [0] 3 = .ok r ∧
      r = [(⟨"alpha doc", "alpha"⟩, 0), (⟨"beta doc", "beta"⟩, 1),
           (⟨"beta doc", "beta"⟩, sentinelDist)] ∧
      r.length = 3 :=
  ⟨_, rfl, rfl, rfl⟩

/-- C2 counterexample: for the non-exit query "hello", when the generative
call raises, `generate_response` returns the fixed fallback string, which
does not end with the medical-disclaimer suffix — refuting the claim that
every non-exit path ends with the disclaimer. -/
theorem c2_counterexample :
    isExitRequest "hello" = false ∧
    (generateResponse ⟨some [[0]], [⟨"alpha doc", "alpha"⟩]⟩ (fun _ => [0])
        (fun _ => .error "APIError") "hello" ⟨[]⟩).1 = fallbackResponse ∧
    pyEndsWith fallbackResponse medicalDisclaimer = false :=
  ⟨rfl, rfl, rfl⟩

/-- C2 (amended): for every non-exit query, `generate_response` either
returns the fixed fallback string (the degraded path, which carries no
disclaimer) or returns a string ending with the exact disclaimer suffix. -/
theorem c2_disclaimer_or_fallback (st : PipelineState) (enc : String → Vec)
    (gen : String → Except String String) (query : String) (idata : IntentsData)
    (h : isExitRequest query = false) :
    (generateResponse st enc gen query idata).1 = fallbackResponse ∨
    pyEndsWith (generateResponse st enc gen query idata).1 medicalDisclaimer = true :=
  nonExit_fallback_or_disclaimer st enc gen query idata h

/-- C2 witness: the amended claim at a concrete non-exit query. -/
theorem c2_witness :
    isExitRequest "hello" = false ∧
    ((generateResponse ⟨some [[0]], [⟨"alpha doc", "alpha"⟩]⟩ (fun _ => [0])
        (fun _ => .ok "ok") "hello" ⟨[]⟩).1 = fallbackResponse ∨
      pyEndsWith (generateResponse ⟨some [[0]], [⟨"alpha doc", "alpha"⟩]⟩ (fun _ => [0])
        (fun _ => .ok "ok") "hello" ⟨[]⟩).1 medicalDisclaimer = true) :=
  ⟨rfl, c2_disclaimer_or_fallback ⟨some [[0]], [⟨"alpha doc", "alpha"⟩]⟩ (fun _ => [0])
    (fun _ => .ok "ok") "hello" ⟨[]⟩ rfl⟩

/-- C3: with an unbuilt index (`self.index = None`) or an index holding no
vectors, the non-exit query "what is diabetes" makes `search` raise; the
exception is caught by `generate_response`'s handler, which returns the
fixed fallback WITHOUT running the intent scan or the generative call
(`intentScanned = false`, `generateCalled = false`) — the pipeline diverts
to the error path instead of proceeding with an empty context, even though
the generative model (here returning "Some answer") is available. -/
theorem c3_empty_index_diverts :
    generateResponse ⟨none, []⟩ (fun _ => [0]) (fun _ => .ok "Some answer")
        "what is diabetes" ⟨[]⟩ = (fallbackResponse, ⟨true, true, false, false⟩) ∧
    generateResponse ⟨some [], []⟩ (fun _ => [0]) (fun _ => .ok "Some answer")
        "what is diabetes" ⟨[]⟩ = (fallbackResponse, ⟨true, true, false, false⟩) ∧
    fallbackResponse ≠ pyStrip "Some answer" ++ medicalDisclaimer :=
  ⟨rfl, rfl, by decide⟩

/-- C4: for every exit-request query, `generate_response` returns the fixed
farewell with no step of the pipeline executed — no normalization, no
search, no intent scan, no generative call — and the farewell does not end
with the disclaimer suffix. -/
theorem c4_exit_short_circuit (st : PipelineState) (enc : String → Vec)
    (gen : String → Except String String) (query : String) (idata : IntentsData)
    (h : isExitRequest query = true) :
    generateResponse st enc gen query idata =
      (farewellResponse, ⟨false, false, false, false⟩) ∧
    pyEndsWith farewellResponse medicalDisclaimer = false := by
  refine ⟨?_, rfl⟩
  unfold generateResponse
  rw [h]
  rfl

/-- C4 witness: the exit phrase "bye". -/
theorem c4_witness :
    generateResponse ⟨none, []⟩ (fun _ => []) (fun _ => .error "down") "bye" ⟨[]⟩ =
      (farewellResponse, ⟨false, false, false, false⟩) ∧
    pyEndsWith farewellResponse medicalDisclaimer = false :=
  c4_exit_short_circuit ⟨none, []⟩ (fun _ => []) (fun _ => .error "down") "bye" ⟨[]⟩ rfl

/-- C5: `is_exit_request` holds exactly when some fixed exit phrase occurs as
a contiguous substring of the lower-cased, whitespace-trimmed input; in
particular "I want to end this chat" is an exit request (it contains "end"). -/
theorem c5_exit_substring_semantics :
    (∀ query : String, isExitRequest query = true ↔
      ∃ p ∈ exitPatterns, ∃ a b : List Char,
        (pyStrip (pyLower query)).data = a ++ p.data ++ b) ∧
    isExitRequest "I want to end this chat" = true := by
  constructor
  · intro query
    unfold isExitRequest
    rw [List.any_eq_true]
    constructor
    · rintro ⟨p, hp, hin⟩
      exact ⟨p, hp, (pyIn_iff p (pyStrip (pyLower query))).mp hin⟩
    · rintro ⟨p, hp, hab⟩
      exact ⟨p, hp, (pyIn_iff p (pyStrip (pyLower query))).mpr hab⟩
  · rfl

/-- C5 witness: the exit phrase "end" inside "I want to end this chat",
with the explicit substring decomposition. -/
theorem c5_witness : isExitRequest "I want to end this chat" = true :=
  (c5_exit_substring_semantics.1 "I want to end this chat").mpr
    ⟨"end", by decide, "i want to ".data, " this chat".data, by decide⟩

/-- C6: `normalize_query` lower-cases, strips non-word/non-space characters,
and substitutes from the misspelling table only on an exact whole-string
match: "Diabetis?!" becomes "diabetes", "I have a headache" passes through,
every output of the canonicalization step is word-or-space only, and every
query is either passed through canonicalized or mapped through a table
entry whose key is exactly the whole canonicalized string. -/
theorem c6_normalize_semantics :
    normalizeQuery "Diabetis?!" = "diabetes" ∧
    normalizeQuery "I have a headache" = "i have a headache" ∧
    (∀ query : String,
      normalizeQuery query = canonicalize query ∨
        (canonicalize query, normalizeQuery query) ∈ misspellings) ∧
    (∀ query : String,
      (canonicalize query).data.all (fun c => isWordChar c || isPySpace c) = true) := by
  refine ⟨rfl, rfl, ?_, ?_⟩
  · intro query
    have hz : normalizeQuery query =
        match misspellings.find? (fun kv => kv.1 == canonicalize query) with
        | some kv => kv.2
        | none => canonicalize query := rfl
    rw [hz]
    cases hf : misspellings.find? (fun kv => kv.1 == canonicalize query) with
    | none => left; rfl
    | some kv =>
      right
      have hmem := List.mem_of_find?_eq_some hf
      have hp := List.find?_some hf
      have hk : kv.1 = canonicalize query := by simpa using hp
      show (canonicalize query, kv.2) ∈ misspellings
      rw [← hk]
      simpa using hmem
  · intro query
    rw [List.all_eq_true]
    intro c hc
    exact (List.mem_filter.mp hc).2

/-- C6 witness: the general passthrough-or-table-hit disjunction at the
concrete query "hart attack" (a table key "hart" does not fire, since the
whole string is not a key). -/
theorem c6_witness :
    normalizeQuery "hart attack" = canonicalize "hart attack" ∨
      (canonicalize "hart attack", normalizeQuery "hart attack") ∈ misspellings :=
  c6_normalize_semantics.2.2.1 "hart attack"

/-- C7: the intent scan is first-match-wins: if no intent before `it` in
table order matches the normalized query and `it` matches, the scan returns
`it`, the intents after `it` are irrelevant to the scan result, and
`generate_response` produces the same output whatever follows `it` in the
table. -/
theorem c7_first_match_wins (query nq : String) (pre : List Intent) (it : Intent)
    (post post' : List Intent) (st : PipelineState) (enc : String → Vec)
    (gen : String → Except String String)
    (hpre : ∀ j ∈ pre, matchesIntent nq j = false)
    (hit : matchesIntent nq it = true)
    (hq : normalizeQuery query = nq) :
    findIntent (pre ++ it :: post) nq = some it ∧
    findIntent (pre ++ it :: post) nq = findIntent (pre ++ it :: post') nq ∧
    generateResponse st enc gen query ⟨pre ++ it :: post⟩ =
      generateResponse st enc gen query ⟨pre ++ it :: post'⟩ := by
  have h1 := findIntent_first nq pre it post hpre hit
  have h2 := findIntent_first nq pre it post' hpre hit
  refine ⟨h1, h1.trans h2.symm, ?_⟩
  simp only [generateResponse, hq, h1, h2]

/-- C7 witness: two intents both matching "headache"; the scan returns the
earlier one, and the table tail after it is irrelevant. -/
theorem c7_witness :
    findIntent ([⟨["zebra"], ["Z"]⟩] ++ ⟨["head"], ["HeadResp"]⟩ ::
        [⟨["head"], ["Other"]⟩]) "headache" = some ⟨["head"], ["HeadResp"]⟩ :=
  (c7_first_match_wins "headache" "headache" [⟨["zebra"], ["Z"]⟩]
    ⟨["head"], ["HeadResp"]⟩ [⟨["head"], ["Other"]⟩] [] ⟨none, []⟩ (fun _ => [])
    (fun _ => .error "e") (by decide) (by decide) (by decide)).1

/-- C8: when an intent matched, the intent's first response is appended
after a blank-line separator exactly when it is not already a substring of
the trimmed generative answer; otherwise the trimmed answer is kept as is
(no second copy is appended), and the disclaimer follows in both cases. -/
theorem c8_intent_dedup (st : PipelineState) (enc : String → Vec)
    (gen : String → Except String String) (query : String) (idata : IntentsData)
    (res : List (Document × Int)) (text : String) (it : Intent) (r0 : String)
    (rest : List String)
    (hex : isExitRequest query = false)
    (hs : searchModel st (enc (normalizeQuery query)) 3 = .ok res)
    (hi : findIntent idata.intents (normalizeQuery query) = some it)
    (hr : it.responses = r0 :: rest)
    (hg : gen (buildPrompt (String.intercalate "\n\n"
        (res.map fun r => r.1.content)) query) = .ok text) :
    (generateResponse st enc gen query idata).1 =
      (if pyIn r0 (pyStrip text) then pyStrip text
       else pyStrip text ++ "\n\n" ++ r0) ++ medicalDisclaimer := by
  simp only [generateResponse, hex, Bool.false_eq_true, if_false, hs, hi, hr, hg]

/-- C8 witness: the generative answer " Drink water " already contains the
matched intent's first response "water", so nothing is appended. -/
theorem c8_witness :
    (generateResponse ⟨some [[0]], [⟨"alpha doc", "alpha"⟩]⟩ (fun _ => [0])
        (fun _ => .ok " Drink water ") "headache"
        ⟨[⟨["head"], ["water"]⟩]⟩).1 =
      (if pyIn "water" (pyStrip " Drink water ") then pyStrip " Drink water "
       else pyStrip " Drink water " ++ "\n\n" ++ "water") ++ medicalDisclaimer :=
  c8_intent_dedup ⟨some [[0]], [⟨"alpha doc", "alpha"⟩]⟩ (fun _ => [0])
    (fun _ => .ok " Drink water ") "headache" ⟨[⟨["head"], ["water"]⟩]⟩
    [(⟨"alpha doc", "alpha"⟩, 0), (⟨"alpha doc", "alpha"⟩, sentinelDist),
     (⟨"alpha doc", "alpha"⟩, sentinelDist)]
    " Drink water " ⟨["head"], ["water"]⟩ "water" [] rfl rfl rfl rfl rfl

/-- C9 counterexample: an empty but successful generative response is NOT
replaced by the apologetic fallback — the pipeline composes it normally, so
the output is just the disclaimer, refuting the claim that an empty
generative result yields the fallback string. -/
theorem c9_counterexample :
    isExitRequest "hello" = false ∧
    (generateResponse ⟨some [[0]], [⟨"alpha doc", "alpha"⟩]⟩ (fun _ => [0])
        (fun _ => .ok "") "hello" ⟨[]⟩).1 = medicalDisclaimer ∧
    medicalDisclaimer ≠ fallbackResponse :=
  ⟨rfl, rfl, by decide⟩

/-- C9 (amended): `generate_response` is total — its result is always the
farewell, the fallback, or a string ending with the disclaimer (no
exception escapes to the caller) — and whenever the external generative
call raises, the non-exit result is exactly the fixed apologetic fallback. -/
theorem c9_total_fallback (st : PipelineState) (enc : String → Vec)
    (gen : String → Except String String) (query : String) (idata : IntentsData) :
    ((generateResponse st enc gen query idata).1 = farewellResponse ∨
     (generateResponse st enc gen query idata).1 = fallbackResponse ∨
     pyEndsWith (generateResponse st enc gen query idata).1 medicalDisclaimer = true) ∧
    (∀ e : String, isExitRequest query = false →
      (generateResponse st enc (fun _ => .error e) query idata).1 = fallbackResponse) := by
  constructor
  · cases hex : isExitRequest query with
    | true =>
      left
      unfold generateResponse
      rw [hex]
      rfl
    | false =>
      rcases nonExit_fallback_or_disclaimer st enc gen query idata hex with hcase | hcase
      · right; left; exact hcase
      · right; right; exact hcase
  · intro e hex
    unfold generateResponse
    rw [hex]
    simp only [Bool.false_eq_true, if_false]
    split
    · rfl
    · rfl

/-- C9 witness: the generative call raising at a concrete non-exit query
resolves to the fallback string. -/
theorem c9_witness :
    (generateResponse ⟨none, []⟩ (fun _ => []) (fun _ => .error "down")
        "hello" ⟨[]⟩).1 = fallbackResponse :=
  (c9_total_fallback ⟨none, []⟩ (fun _ => []) (fun _ => .ok "x") "hello" ⟨[]⟩).2
    "down" rfl

/-- C10: for every record carrying a `tag` field, the loader builds the
content by concatenating, in fixed order, the tag value, the value of the
field named by the tag, a "Symptoms:" line and a "Treatment:" line (absent
fields rendered as empty segments), and "Types:" / "Prevention:" lines
exactly when those fields are present; a list of such records never makes
the loader raise and yields one document per record. -/
theorem c10_loader_content (d : Record) (tagv : String) (ds : List Record)
    (hd : dictFind? d "tag" = some tagv)
    (hds : ∀ r ∈ ds, (dictFind? r "tag").isSome = true) :
    processDisease d = .ok ⟨tagv ++ ": " ++ (dictFind? d tagv).getD "" ++ "\n" ++
      "Symptoms: " ++ (dictFind? d "symptoms").getD "" ++ "\n" ++
      "Treatment: " ++ (dictFind? d "treatment").getD "" ++ "\n" ++
      (if (dictFind? d "types").isSome then
        "Types: " ++ (dictFind? d "types").getD "" ++ "\n" else "") ++
      (if (dictFind? d "prevention").isSome then
        "Prevention: " ++ (dictFind? d "prevention").getD "" else ""), tagv⟩ ∧
    ∃ docs, loadDiseasesData ds = .ok docs ∧ docs.length = ds.length := by
  constructor
  · have hg : dictGetD d "tag" "" = tagv := by
      rw [dictGetD_eq_getD, hd]
      rfl
    simp only [processDisease, hd, dictGetD_eq_getD, hg, Option.getD_some]
  · clear hd
    induction ds with
    | nil => exact ⟨[], rfl, rfl⟩
    | cons r rs ih =>
      obtain ⟨v, hv⟩ := Option.isSome_iff_exists.mp (hds r (by simp))
      obtain ⟨docs, hdocs, hlen⟩ := ih fun j hj => hds j (by simp [hj])
      have hproc : ∃ doc, processDisease r = .ok doc := by
        simp only [processDisease, hv]
        exact ⟨_, rfl⟩
      obtain ⟨doc, hdoc⟩ := hproc
      refine ⟨doc :: docs, ?_, by simp [hlen]⟩
      simp only [loadDiseasesData, hdoc, hdocs]
      rfl

/-- C10 witness: a record missing the `symptoms`, `types` and `prevention`
fields loads without raising, with the missing segments rendered empty. -/
theorem c10_witness :
    processDisease [("tag", "Flu"), ("Flu", "A viral infection"), ("treatment", "rest")] =
      .ok ⟨"Flu: A viral infection\nSymptoms: \nTreatment: rest\n", "Flu"⟩ ∧
    ∃ docs, loadDiseasesData
        [[("tag", "Flu"), ("Flu", "A viral infection"), ("treatment", "rest")]] =
        .ok docs ∧ docs.length = 1 := by
  have h := c10_loader_content
    [("tag", "Flu"), ("Flu", "A viral infection"), ("treatment", "rest")] "Flu"
    [[("tag", "Flu"), ("Flu", "A viral infection"), ("treatment", "rest")]]
    rfl (by decide)
  exact ⟨by rw [h.1]; rfl, h.2⟩
